import Mathlib

/-!
Verification of the iticket bot (src/main.py) against its specification.

The development shallowly embeds the program:

* `check_tickets` embeds the prober function `check_tickets` of main.py as a
  pure function of the outcome of the single `requests.get` call: the call
  either raises (network or timeout error) or yields a response with a status
  code and a body; the body either fails to parse as JSON or parses, in which
  case the lookup of the field `available_tickets_count` yields an optional
  integer.  The Python function returns the count on success and `None` on any
  failure (it catches every exception internally), so the embedding returns
  `Option Int`.

* `auto_check_loop_run` embeds the coroutine `auto_check_loop` of main.py as a
  function over a finite trace of tick inputs.  Each tick records the fetch
  outcome seen by `check_tickets`, whether the awaited
  `context.bot.send_message` call succeeds when it is reached, and whether a
  cancellation signal is delivered at the `asyncio.sleep(30)` boundary of the
  tick.  The Python `try` block encloses the whole `while True` loop, so an
  exception raised by the send escapes the loop, is caught by the
  `except Exception` clause and ends the coroutine, while a `CancelledError`
  is caught by the `except asyncio.CancelledError` clause and ends it cleanly.
  Diagnostic logging has no behavioural effect and is not modelled.

* `BotState`, the handlers `handle_manual_check`, `handle_start_auto`,
  `handle_stop_auto` and the dispatcher `button_callback` embed the global
  dictionary `auto_check_tasks` together with the `button_callback` handler of
  main.py.  A task created by `asyncio.create_task` is modelled by an
  identifier and a status: `running` after creation, `cancelled` once
  `task.cancel()` has been issued, `dead` once the coroutine has returned
  (either through the `CancelledError` handler or the `Exception` handler).
  `stepEv` and `reach` give the reachable states of the system under button
  presses and loop terminations.

* `LoopOp`, `is_suspension_point`, `segments` and `coop_traces` embed the
  cooperative single-threaded scheduling of asyncio over the operations of one
  loop iteration: control can move between tasks only at an awaited operation.
  In the source, `requests.get` is invoked synchronously (no `await`), while
  the send and the sleep are awaited.
-/

/-- Outcome of `response.json()` plus the field lookup
`data.get("available_tickets_count", 0)`: `none` means `response.json()`
raised (unparseable body); `some v` means the body parsed and the field
lookup gave `v` (`none` when the key is absent, `some i` when it holds the
integer `i`). -/
def JsonField : Type := Option (Option Int)

/-- An HTTP response as observed by `check_tickets`: a status code and the
parse outcome of its body. -/
structure HttpResponse where
  status_code : Nat
  body : Option (Option Int)
deriving DecidableEq

/-- Outcome of the `requests.get(API_URL)` call: either a response or a
raised network or timeout exception. -/
inductive FetchOutcome
  | response (r : HttpResponse)
  | raised
deriving DecidableEq

/-- Embedding of `check_tickets` of main.py.  Inside `try`: on status 200 the
body is parsed and the field `available_tickets_count` is read with default
0; on any other status the function returns `None`; any exception (from the
request or from `response.json()`) is caught and the function returns
`None`.  The function never raises to its caller. -/
def check_tickets : FetchOutcome → Option Int
  | FetchOutcome.raised => none
  | FetchOutcome.response r =>
      if r.status_code = 200 then
        match r.body with
        | none => none
        | some field => some (field.getD 0)
      else none

/-- The text of the outbound message
`f"Tickets are available! ({available_tickets} available)"`. -/
def ticket_msg (n : Int) : String :=
  "Tickets are available! (" ++ toString n ++ " available)"

/-- A user-visible output of the program: an outbound
`context.bot.send_message` or a `query.answer` acknowledgment with its
`show_alert` flag. -/
inductive Effect
  | send_message (chat : Int) (text : String)
  | answer (text : String) (show_alert : Bool)
deriving DecidableEq

/-- The environment of one iteration of `auto_check_loop`: the fetch outcome
seen by `check_tickets`, whether `context.bot.send_message` succeeds if it is
reached, and whether a cancellation signal is delivered at the
`asyncio.sleep(30)` boundary of this iteration. -/
structure TickInput where
  fetch : FetchOutcome
  send_ok : Bool
  cancel_during_sleep : Bool
deriving DecidableEq

/-- How a run of `auto_check_loop` ends on a finite trace: still inside the
`while` loop, returned through the `except asyncio.CancelledError` handler,
or returned through the `except Exception` handler. -/
inductive LoopExit
  | stillRunning
  | cancelled
  | exnCaught
deriving DecidableEq

/-- One iteration of the body of the `while True` loop of `auto_check_loop`:
`none` means an exception escaped the iteration (the send raised); `some
effs` means the iteration completed, producing the sends `effs`.  A `None`
result of `check_tickets` and a zero or negative count only log. -/
def auto_tick (chat : Int) (t : TickInput) : Option (List Effect) :=
  match check_tickets t.fetch with
  | none => some []
  | some n =>
      if 0 < n then
        if t.send_ok then some [Effect.send_message chat (ticket_msg n)] else none
      else some []

/-- Embedding of `auto_check_loop` of main.py over a finite trace of tick
inputs.  The `try` encloses the whole `while True` loop: an exception from an
iteration ends the run through `except Exception` (exit `exnCaught`), a
cancellation delivered at the sleep ends it through
`except asyncio.CancelledError` (exit `cancelled`), and otherwise the loop
continues with the next tick. -/
def auto_check_loop_run (chat : Int) : List TickInput → List Effect × LoopExit
  | [] => ([], LoopExit.stillRunning)
  | t :: ts =>
      match auto_tick chat t with
      | none => ([], LoopExit.exnCaught)
      | some effs =>
          if t.cancel_during_sleep then (effs, LoopExit.cancelled)
          else
            let rest := auto_check_loop_run chat ts
            (effs ++ rest.1, rest.2)

/-- A fetch outcome for a 200 response whose body holds the count `n`. -/
def fetch_ok (n : Int) : FetchOutcome :=
  FetchOutcome.response ⟨200, some (some n)⟩

/-- A tick whose send succeeds and at which no cancellation is delivered. -/
def plain_tick (f : FetchOutcome) : TickInput :=
  ⟨f, true, false⟩

example : check_tickets (fetch_ok 5) = some 5 := by rfl
example : check_tickets FetchOutcome.raised = none := by rfl
example : check_tickets (FetchOutcome.response ⟨404, some (some 5)⟩) = none := by rfl
example : check_tickets (FetchOutcome.response ⟨200, none⟩) = none := by rfl
example : check_tickets (FetchOutcome.response ⟨200, some none⟩) = some 0 := by rfl
example :
    auto_check_loop_run 1 [plain_tick (fetch_ok 5), plain_tick (fetch_ok 5)] =
      ([Effect.send_message 1 (ticket_msg 5), Effect.send_message 1 (ticket_msg 5)],
        LoopExit.stillRunning) := by rfl
example :
    auto_check_loop_run 1 [⟨fetch_ok 5, false, false⟩, plain_tick (fetch_ok 5)] =
      ([], LoopExit.exnCaught) := by rfl

/-- Status of an asyncio task created by `asyncio.create_task`: `running`
after creation, `cancelled` once `task.cancel()` has been issued, `dead`
once the coroutine has returned. -/
inductive TaskStatus
  | running
  | cancelled
  | dead
deriving DecidableEq

/-- A background task: the chat it is bound to and its status. -/
structure TaskInfo where
  chat : Int
  status : TaskStatus
deriving DecidableEq

/-- The mutable state of the program: the global dictionary
`auto_check_tasks` mapping a chat id to the identifier of its registered
task, the pool of tasks ever created (identified by creation order), and the
next fresh identifier. -/
structure BotState where
  auto_check_tasks : Int → Option Nat
  tasks : Nat → Option TaskInfo
  nextId : Nat

/-- The initial state: `auto_check_tasks = {}` and no task ever created. -/
def initState : BotState :=
  { auto_check_tasks := fun _ => none, tasks := fun _ => none, nextId := 0 }

/-- The three `callback_data` tokens of the inline keyboard. -/
inductive BtnAction
  | manual_check
  | start_auto
  | stop_auto
deriving DecidableEq

/-- The `manual_check` branch of `button_callback`: one call to
`check_tickets`; on `None` an alerting answer, on a positive count a message
with the count followed by a non-alerting answer, otherwise a non-alerting
answer.  The state is not touched. -/
def handle_manual_check (chat : Int) (fetch : FetchOutcome) (s : BotState) :
    BotState × List Effect :=
  match check_tickets fetch with
  | none => (s, [Effect.answer "Error fetching data." true])
  | some n =>
      if 0 < n then
        (s, [Effect.send_message chat (ticket_msg n), Effect.answer "Tickets found!" false])
      else (s, [Effect.answer "No tickets available." false])

/-- Update of a finite mapping at one key: the effect of a dictionary store
`d[k] = v` (or of `d.pop(k)` when `v` is `none`). -/
def upd {κ β : Type} [DecidableEq κ] (f : κ → Option β) (k : κ) (v : Option β) :
    κ → Option β :=
  fun x => if x = k then v else f x

@[simp] theorem upd_same {κ β : Type} [DecidableEq κ] (f : κ → Option β) (k : κ)
    (v : Option β) : upd f k v k = v := by
  simp [upd]

theorem upd_other {κ β : Type} [DecidableEq κ] (f : κ → Option β) (k k2 : κ)
    (v : Option β) (h : k2 ≠ k) : upd f k v k2 = f k2 := by
  simp [upd, h]

/-- The `start_auto` branch of `button_callback`: if the chat already has an
entry in `auto_check_tasks`, answer with an alert and change nothing;
otherwise create a fresh task running `auto_check_loop` for this chat, store
it in the dictionary and answer without an alert. -/
def handle_start_auto (chat : Int) (s : BotState) : BotState × List Effect :=
  match s.auto_check_tasks chat with
  | some _ => (s, [Effect.answer "Auto check already running." true])
  | none =>
      ({ auto_check_tasks := upd s.auto_check_tasks chat (some s.nextId),
         tasks := upd s.tasks s.nextId (some ⟨chat, TaskStatus.running⟩),
         nextId := s.nextId + 1 },
        [Effect.answer "Started auto check." false])

/-- The effect of `task.cancel()` on the status of the task: a running or
already cancelled task becomes (stays) cancelled; cancelling a finished task
is a no-op. -/
def cancel_status : TaskStatus → TaskStatus
  | TaskStatus.dead => TaskStatus.dead
  | _ => TaskStatus.cancelled

/-- The `stop_auto` branch of `button_callback`: if the chat has an entry,
pop it from the dictionary and call `task.cancel()` on it, in the same
handler invocation, then answer without an alert; otherwise answer with an
alert and change nothing. -/
def handle_stop_auto (chat : Int) (s : BotState) : BotState × List Effect :=
  match s.auto_check_tasks chat with
  | some tid =>
      ({ auto_check_tasks := upd s.auto_check_tasks chat none,
         tasks := upd s.tasks tid
           ((s.tasks tid).map (fun i => ⟨i.chat, cancel_status i.status⟩)),
         nextId := s.nextId },
        [Effect.answer "Stopped auto check." false])
  | none => (s, [Effect.answer "Auto check is not running." true])

/-- Embedding of the `button_callback` handler of main.py: dispatch on the
action token of the pressed button. -/
def button_callback (action : BtnAction) (chat : Int) (fetch : FetchOutcome) (s : BotState) :
    BotState × List Effect :=
  match action with
  | BtnAction.manual_check => handle_manual_check chat fetch s
  | BtnAction.start_auto => handle_start_auto chat s
  | BtnAction.stop_auto => handle_stop_auto chat s

/-- System-level events: a button press handled by `button_callback`, a
running loop ending through its `except Exception` handler, and a cancelled
loop ending through its `except asyncio.CancelledError` handler. -/
inductive Event
  | press (action : BtnAction) (chat : Int) (fetch : FetchOutcome)
  | loop_crash (tid : Nat)
  | loop_exit_cancelled (tid : Nat)

/-- Mark task `tid` as dead provided its current status is `from_st`. -/
def finish_task (s : BotState) (tid : Nat) (from_st : TaskStatus) : BotState :=
  match s.tasks tid with
  | some info =>
      if info.status = from_st then
        { s with tasks := upd s.tasks tid (some ⟨info.chat, TaskStatus.dead⟩) }
      else s
  | none => s

/-- One system step. -/
def stepEv (s : BotState) (e : Event) : BotState :=
  match e with
  | Event.press a c f => (button_callback a c f s).1
  | Event.loop_crash tid => finish_task s tid TaskStatus.running
  | Event.loop_exit_cancelled tid => finish_task s tid TaskStatus.cancelled

/-- The state reached from the initial state by a trace of events. -/
def reach (tr : List Event) : BotState :=
  tr.foldl stepEv initState

/-- The inductive invariant of the system: every task identifier ever used
is below `nextId`; every running task is the one registered in
`auto_check_tasks` for its chat; and every dictionary entry points at an
existing task bound to that chat. -/
def SysInv (s : BotState) : Prop :=
  (∀ tid, (s.tasks tid).isSome → tid < s.nextId) ∧
  (∀ tid c, s.tasks tid = some ⟨c, TaskStatus.running⟩ → s.auto_check_tasks c = some tid) ∧
  (∀ c tid, s.auto_check_tasks c = some tid → ∃ st, s.tasks tid = some ⟨c, st⟩)

theorem sysInv_initState : SysInv initState := by
  refine ⟨?_, ?_, ?_⟩ <;> intro a b <;> simp [initState] at *

/-- The manual-check branch does not touch the state. -/
theorem manual_check_state_eq (chat : Int) (fetch : FetchOutcome) (s : BotState) :
    (handle_manual_check chat fetch s).1 = s := by
  unfold handle_manual_check
  cases check_tickets fetch with
  | none => rfl
  | some n => by_cases h : 0 < n <;> simp [h]

theorem sysInv_start (chat : Int) (s : BotState) (h : SysInv s) :
    SysInv (handle_start_auto chat s).1 := by
  obtain ⟨h1, h2, h3⟩ := h
  unfold handle_start_auto
  cases hreg : s.auto_check_tasks chat with
  | some tid => exact ⟨h1, h2, h3⟩
  | none =>
      refine ⟨?_, ?_, ?_⟩
      · intro tid htid
        show tid < s.nextId + 1
        have htid2 : (upd s.tasks s.nextId (some ⟨chat, TaskStatus.running⟩) tid).isSome :=
          htid
        by_cases ht : tid = s.nextId
        · omega
        · rw [upd_other _ _ _ _ ht] at htid2
          have := h1 tid htid2
          omega
      · intro tid c htc
        have htc2 : upd s.tasks s.nextId (some ⟨chat, TaskStatus.running⟩) tid =
            some ⟨c, TaskStatus.running⟩ := htc
        show upd s.auto_check_tasks chat (some s.nextId) c = some tid
        by_cases ht : tid = s.nextId
        · subst ht
          rw [upd_same] at htc2
          have hc : chat = c := by
            have := (TaskInfo.mk.injEq _ _ _ _).mp ((Option.some.injEq _ _).mp htc2)
            exact this.1
          subst hc
          rw [upd_same]
        · rw [upd_other _ _ _ _ ht] at htc2
          have hc2 := h2 tid c htc2
          by_cases hc : c = chat
          · subst hc
            rw [hreg] at hc2
            exact absurd hc2 (by simp)
          · rw [upd_other _ _ _ _ hc]
            exact hc2
      · intro c tid hrc
        have hrc2 : upd s.auto_check_tasks chat (some s.nextId) c = some tid := hrc
        by_cases hc : c = chat
        · subst hc
          rw [upd_same] at hrc2
          have ht : s.nextId = tid := (Option.some.injEq _ _).mp hrc2
          subst ht
          refine ⟨TaskStatus.running, ?_⟩
          show upd s.tasks s.nextId (some ⟨c, TaskStatus.running⟩) s.nextId =
            some ⟨c, TaskStatus.running⟩
          rw [upd_same]
        · rw [upd_other _ _ _ _ hc] at hrc2
          obtain ⟨st, hst⟩ := h3 c tid hrc2
          have hlt : tid < s.nextId := h1 tid (by rw [hst]; rfl)
          have ht : tid ≠ s.nextId := by omega
          refine ⟨st, ?_⟩
          show upd s.tasks s.nextId (some ⟨chat, TaskStatus.running⟩) tid = some ⟨c, st⟩
          rw [upd_other _ _ _ _ ht]
          exact hst

theorem sysInv_stop (chat : Int) (s : BotState) (h : SysInv s) :
    SysInv (handle_stop_auto chat s).1 := by
  obtain ⟨h1, h2, h3⟩ := h
  unfold handle_stop_auto
  cases hreg : s.auto_check_tasks chat with
  | none => exact ⟨h1, h2, h3⟩
  | some tid0 =>
      refine ⟨?_, ?_, ?_⟩
      · intro tid htid
        show tid < s.nextId
        have htid2 : (upd s.tasks tid0
            ((s.tasks tid0).map (fun i => ⟨i.chat, cancel_status i.status⟩)) tid).isSome :=
          htid
        by_cases ht : tid = tid0
        · subst ht
          rw [upd_same, Option.isSome_map'] at htid2
          exact h1 tid htid2
        · rw [upd_other _ _ _ _ ht] at htid2
          exact h1 tid htid2
      · intro tid c htc
        have htc2 : upd s.tasks tid0
            ((s.tasks tid0).map (fun i => ⟨i.chat, cancel_status i.status⟩)) tid =
            some ⟨c, TaskStatus.running⟩ := htc
        show upd s.auto_check_tasks chat none c = some tid
        by_cases ht : tid = tid0
        · subst ht
          rw [upd_same] at htc2
          cases hts : s.tasks tid with
          | none => rw [hts] at htc2; simp at htc2
          | some info =>
              rw [hts] at htc2
              simp only [Option.map_some', Option.some.injEq] at htc2
              have hcs : cancel_status info.status = TaskStatus.running :=
                ((TaskInfo.mk.injEq _ _ _ _).mp htc2).2
              cases hi : info.status <;> rw [hi] at hcs <;> simp [cancel_status] at hcs
        · rw [upd_other _ _ _ _ ht] at htc2
          have hc2 := h2 tid c htc2
          by_cases hc : c = chat
          · subst hc
            rw [hreg] at hc2
            have : tid0 = tid := (Option.some.injEq _ _).mp hc2
            exact absurd this.symm ht
          · rw [upd_other _ _ _ _ hc]
            exact hc2
      · intro c tid hrc
        have hrc2 : upd s.auto_check_tasks chat none c = some tid := hrc
        by_cases hc : c = chat
        · subst hc
          rw [upd_same] at hrc2
          exact absurd hrc2 (by simp)
        · rw [upd_other _ _ _ _ hc] at hrc2
          obtain ⟨st, hst⟩ := h3 c tid hrc2
          by_cases ht : tid = tid0
          · subst ht
            refine ⟨cancel_status st, ?_⟩
            show upd s.tasks tid
                ((s.tasks tid).map (fun i => ⟨i.chat, cancel_status i.status⟩)) tid =
              some ⟨c, cancel_status st⟩
            rw [upd_same, hst]
            rfl
          · refine ⟨st, ?_⟩
            show upd s.tasks tid0
                ((s.tasks tid0).map (fun i => ⟨i.chat, cancel_status i.status⟩)) tid =
              some ⟨c, st⟩
            rw [upd_other _ _ _ _ ht]
            exact hst

theorem sysInv_finish (s : BotState) (tid : Nat) (st0 : TaskStatus) (h : SysInv s) :
    SysInv (finish_task s tid st0) := by
  obtain ⟨h1, h2, h3⟩ := h
  cases hts : s.tasks tid with
  | none =>
      have hred : finish_task s tid st0 = s := by unfold finish_task; rw [hts]
      rw [hred]
      exact ⟨h1, h2, h3⟩
  | some info =>
      by_cases hst : info.status = st0
      · have hred : finish_task s tid st0 =
            { s with tasks := upd s.tasks tid (some ⟨info.chat, TaskStatus.dead⟩) } := by
          simp [finish_task, hts, hst]
        rw [hred]
        refine ⟨?_, ?_, ?_⟩
        · intro t htis
          show t < s.nextId
          have htis2 : (upd s.tasks tid (some ⟨info.chat, TaskStatus.dead⟩) t).isSome := htis
          by_cases htt : t = tid
          · subst htt
            exact h1 t (by rw [hts]; rfl)
          · rw [upd_other _ _ _ _ htt] at htis2
            exact h1 t htis2
        · intro t c htc
          have htc2 : upd s.tasks tid (some ⟨info.chat, TaskStatus.dead⟩) t =
              some ⟨c, TaskStatus.running⟩ := htc
          show s.auto_check_tasks c = some t
          by_cases htt : t = tid
          · subst htt
            rw [upd_same] at htc2
            have := ((TaskInfo.mk.injEq _ _ _ _).mp ((Option.some.injEq _ _).mp htc2)).2
            exact absurd this (by simp)
          · rw [upd_other _ _ _ _ htt] at htc2
            exact h2 t c htc2
        · intro c t hrc
          have hrc2 : s.auto_check_tasks c = some t := hrc
          obtain ⟨st, hstc⟩ := h3 c t hrc2
          by_cases htt : t = tid
          · subst htt
            rw [hts] at hstc
            have hic : info.chat = c :=
              ((TaskInfo.mk.injEq _ _ _ _).mp ((Option.some.injEq _ _).mp hstc)).1
            refine ⟨TaskStatus.dead, ?_⟩
            show upd s.tasks t (some ⟨info.chat, TaskStatus.dead⟩) t = some ⟨c, TaskStatus.dead⟩
            rw [upd_same, hic]
          · refine ⟨st, ?_⟩
            show upd s.tasks tid (some ⟨info.chat, TaskStatus.dead⟩) t = some ⟨c, st⟩
            rw [upd_other _ _ _ _ htt]
            exact hstc
      · have hred : finish_task s tid st0 = s := by
          simp [finish_task, hts, hst]
        rw [hred]
        exact ⟨h1, h2, h3⟩

theorem sysInv_stepEv (s : BotState) (e : Event) (h : SysInv s) : SysInv (stepEv s e) := by
  cases e with
  | press a c f =>
      cases a with
      | manual_check =>
          show SysInv (button_callback BtnAction.manual_check c f s).1
          rw [show (button_callback BtnAction.manual_check c f s).1 = s from
            manual_check_state_eq c f s]
          exact h
      | start_auto => exact sysInv_start c s h
      | stop_auto => exact sysInv_stop c s h
  | loop_crash tid => exact sysInv_finish s tid TaskStatus.running h
  | loop_exit_cancelled tid => exact sysInv_finish s tid TaskStatus.cancelled h

theorem sysInv_foldl (tr : List Event) (s : BotState) (h : SysInv s) :
    SysInv (tr.foldl stepEv s) := by
  induction tr generalizing s with
  | nil => exact h
  | cons e tr ih => exact ih (stepEv s e) (sysInv_stepEv s e h)

/-- Every reachable state satisfies the invariant. -/
theorem sysInv_reach (tr : List Event) : SysInv (reach tr) :=
  sysInv_foldl tr initState sysInv_initState

/-- At most one running task per chat, in any state satisfying the
invariant. -/
theorem running_unique (s : BotState) (h : SysInv s) (c : Int) (t1 t2 : Nat)
    (ht1 : s.tasks t1 = some ⟨c, TaskStatus.running⟩)
    (ht2 : s.tasks t2 = some ⟨c, TaskStatus.running⟩) : t1 = t2 := by
  have e1 := h.2.1 t1 c ht1
  have e2 := h.2.1 t2 c ht2
  rw [e1] at e2
  exact (Option.some.injEq _ _).mp e2

/-- On a trace of ticks whose sends succeed and with no cancellation, the
output of the loop is exactly one message per tick with a positive count,
none for failed or non-positive ticks, and the loop is still running. -/
theorem auto_loop_map_plain (chat : Int) (fs : List FetchOutcome) :
    auto_check_loop_run chat (fs.map plain_tick) =
      (fs.filterMap (fun f =>
          match check_tickets f with
          | none => none
          | some n =>
              if 0 < n then some (Effect.send_message chat (ticket_msg n)) else none),
        LoopExit.stillRunning) := by
  induction fs with
  | nil => rfl
  | cons f fs ih =>
      rw [List.map_cons, List.filterMap_cons]
      cases hct : check_tickets f with
      | none => simp [auto_check_loop_run, auto_tick, plain_tick, hct, ih]
      | some n =>
          by_cases hn : 0 < n <;>
            simp [auto_check_loop_run, auto_tick, plain_tick, hct, hn, ih]

/-- With the prober reporting zero, any number of ticks sends nothing. -/
theorem auto_loop_zero (chat : Int) (k : Nat) :
    auto_check_loop_run chat (List.replicate k (plain_tick (fetch_ok 0))) =
      ([], LoopExit.stillRunning) := by
  induction k with
  | zero => rfl
  | succ k ih =>
      rw [List.replicate_succ]
      have h0 : auto_tick chat (plain_tick (fetch_ok 0)) = some [] := rfl
      have hc : (plain_tick (fetch_ok 0)).cancel_during_sleep = false := rfl
      simp [auto_check_loop_run, h0, hc, ih]

/-- A tick whose send succeeds never raises out of the loop body. -/
theorem auto_tick_send_ok (chat : Int) (t : TickInput) (h : t.send_ok = true) :
    ∃ effs, auto_tick chat t = some effs := by
  unfold auto_tick
  cases check_tickets t.fetch with
  | none => exact ⟨[], rfl⟩
  | some n =>
      by_cases hn : 0 < n
      · exact ⟨[Effect.send_message chat (ticket_msg n)], by simp [hn, h]⟩
      · exact ⟨[], by simp [hn]⟩

/-- Reduction of the start handler when the chat is already registered. -/
theorem handle_start_auto_present (chat : Int) (s : BotState) (tid : Nat)
    (h : s.auto_check_tasks chat = some tid) :
    handle_start_auto chat s = (s, [Effect.answer "Auto check already running." true]) := by
  unfold handle_start_auto
  rw [h]

/-- Reduction of the start handler when the chat is not registered. -/
theorem handle_start_auto_absent (chat : Int) (s : BotState)
    (h : s.auto_check_tasks chat = none) :
    handle_start_auto chat s =
      ({ auto_check_tasks := upd s.auto_check_tasks chat (some s.nextId),
         tasks := upd s.tasks s.nextId (some ⟨chat, TaskStatus.running⟩),
         nextId := s.nextId + 1 },
        [Effect.answer "Started auto check." false]) := by
  unfold handle_start_auto
  rw [h]

/-- Reduction of the stop handler when the chat is registered. -/
theorem handle_stop_auto_present (chat : Int) (s : BotState) (tid : Nat)
    (h : s.auto_check_tasks chat = some tid) :
    handle_stop_auto chat s =
      ({ auto_check_tasks := upd s.auto_check_tasks chat none,
         tasks := upd s.tasks tid
           ((s.tasks tid).map (fun i => ⟨i.chat, cancel_status i.status⟩)),
         nextId := s.nextId },
        [Effect.answer "Stopped auto check." false]) := by
  unfold handle_stop_auto
  rw [h]

/-- C6 (corrected), counterexample: on an HTTP 200 response whose parseable
JSON body holds -1 in the availability-count field, `check_tickets` returns
-1, a negative integer.  The code has no guard on the sign of the field, so
the prober does not always return a non-negative count on a 200 response
with a parseable body, contrary to the claim. -/
theorem check_tickets_negative_passthrough :
    check_tickets (FetchOutcome.response ⟨200, some (some (-1))⟩) = some (-1) ∧
      ¬ (0 ≤ (-1 : Int)) := by
  exact ⟨rfl, by decide⟩

/-- C6 (corrected), amended claim: `check_tickets` returns the integer held
in the availability-count field on an HTTP 200 response with a parseable
body (zero when the field is absent) — hence a non-negative count whenever
the field value is non-negative — and returns the single failure signal
`none`, never raising to its caller, both on a non-200 status and on any
network, timeout or parse exception. -/
theorem check_tickets_contract :
    (check_tickets FetchOutcome.raised = none) ∧
    (∀ r : HttpResponse, r.status_code ≠ 200 →
      check_tickets (FetchOutcome.response r) = none) ∧
    (check_tickets (FetchOutcome.response ⟨200, none⟩) = none) ∧
    (∀ field : Option Int,
      check_tickets (FetchOutcome.response ⟨200, some field⟩) = some (field.getD 0)) ∧
    (check_tickets (FetchOutcome.response ⟨200, some none⟩) = some 0) ∧
    (∀ v : Int, 0 ≤ v →
      ∃ n, check_tickets (FetchOutcome.response ⟨200, some (some v)⟩) = some n ∧ 0 ≤ n) := by
  refine ⟨rfl, ?_, rfl, ?_, rfl, ?_⟩
  · intro r hr
    simp [check_tickets, hr]
  · intro field
    simp [check_tickets]
  · intro v hv
    exact ⟨v, by simp [check_tickets], hv⟩

theorem check_tickets_contract_witness :
    check_tickets (FetchOutcome.response ⟨404, some (some 7)⟩) = none ∧
      ∃ n, check_tickets (FetchOutcome.response ⟨200, some (some 7)⟩) = some n ∧ 0 ≤ n :=
  ⟨check_tickets_contract.2.1 ⟨404, some (some 7)⟩ (by decide),
    check_tickets_contract.2.2.2.2.2 7 (by decide)⟩

/-- C5: a manual check with a positive count sends exactly one message with
the count and one non-alerting acknowledgment; with zero, no message and one
non-alerting acknowledgment; with a prober failure, no message and one
alerting acknowledgment.  The state is never modified. -/
theorem manual_check_outputs :
    (∀ (chat : Int) (s : BotState) (fetch : FetchOutcome) (n : Int),
        check_tickets fetch = some n → 0 < n →
        handle_manual_check chat fetch s =
          (s, [Effect.send_message chat (ticket_msg n),
               Effect.answer "Tickets found!" false])) ∧
    (∀ (chat : Int) (s : BotState) (fetch : FetchOutcome),
        check_tickets fetch = some 0 →
        handle_manual_check chat fetch s = (s, [Effect.answer "No tickets available." false])) ∧
    (∀ (chat : Int) (s : BotState) (fetch : FetchOutcome),
        check_tickets fetch = none →
        handle_manual_check chat fetch s = (s, [Effect.answer "Error fetching data." true])) := by
  refine ⟨?_, ?_, ?_⟩
  · intro chat s fetch n hct hn
    simp [handle_manual_check, hct, hn]
  · intro chat s fetch hct
    simp [handle_manual_check, hct]
  · intro chat s fetch hct
    simp [handle_manual_check, hct]

theorem manual_check_outputs_witness :
    handle_manual_check 1 (fetch_ok 3) initState =
      (initState, [Effect.send_message 1 (ticket_msg 3),
        Effect.answer "Tickets found!" false]) ∧
    handle_manual_check 1 (fetch_ok 0) initState =
      (initState, [Effect.answer "No tickets available." false]) ∧
    handle_manual_check 1 FetchOutcome.raised initState =
      (initState, [Effect.answer "Error fetching data." true]) :=
  ⟨manual_check_outputs.1 1 initState (fetch_ok 3) 3 rfl (by decide),
    manual_check_outputs.2.1 1 initState (fetch_ok 0) rfl,
    manual_check_outputs.2.2 1 initState FetchOutcome.raised rfl⟩

/-- C3: on a trace of successful-send, uncancelled ticks, the loop emits
exactly one message carrying the count for each tick with a positive count
and nothing for failed or zero ticks, never terminating on its own; in
particular two consecutive ticks reporting 5 yield two messages reporting
5, and any number of zero ticks yields no message. -/
theorem auto_loop_tick_outputs :
    (∀ (chat : Int) (fs : List FetchOutcome),
        auto_check_loop_run chat (fs.map plain_tick) =
          (fs.filterMap (fun f =>
              match check_tickets f with
              | none => none
              | some n =>
                  if 0 < n then some (Effect.send_message chat (ticket_msg n)) else none),
            LoopExit.stillRunning)) ∧
    (auto_check_loop_run 1 [plain_tick (fetch_ok 5), plain_tick (fetch_ok 5)] =
      ([Effect.send_message 1 (ticket_msg 5), Effect.send_message 1 (ticket_msg 5)],
        LoopExit.stillRunning)) ∧
    (auto_check_loop_run 1 [plain_tick FetchOutcome.raised, plain_tick (fetch_ok 5)] =
      ([Effect.send_message 1 (ticket_msg 5)], LoopExit.stillRunning)) ∧
    (∀ k : Nat,
        auto_check_loop_run 1 (List.replicate k (plain_tick (fetch_ok 0))) =
          ([], LoopExit.stillRunning)) :=
  ⟨auto_loop_map_plain, rfl, rfl, auto_loop_zero 1⟩

/-- C2 (corrected), counterexample: with the prober returning 5 and the
outbound send raising at the first tick, the loop produces nothing and ends
with exit `exnCaught` — it does not proceed to the second tick (whose send,
by the second conjunct, would have produced a message), and it terminates
without any cancellation. -/
theorem send_failure_kills_loop :
    auto_check_loop_run 1 [⟨fetch_ok 5, false, false⟩, plain_tick (fetch_ok 5)] =
      ([], LoopExit.exnCaught) ∧
    auto_check_loop_run 1 [plain_tick (fetch_ok 5)] =
      ([Effect.send_message 1 (ticket_msg 5)], LoopExit.stillRunning) :=
  ⟨rfl, rfl⟩

/-- C2 (corrected), amended claim: a prober failure is absorbed inside the
tick and the loop proceeds to the next tick, but a failure while sending the
outbound message escapes the `while` loop, is caught by the function-level
`except Exception` handler and terminates the loop (without re-raising to
the caller); cancellation also terminates the loop, through the
`except asyncio.CancelledError` handler. -/
theorem loop_failure_policy :
    (∀ (chat : Int) (t : TickInput) (ts : List TickInput),
        check_tickets t.fetch = none → t.cancel_during_sleep = false →
        auto_check_loop_run chat (t :: ts) = auto_check_loop_run chat ts) ∧
    (∀ (chat : Int) (t : TickInput) (ts : List TickInput) (n : Int),
        check_tickets t.fetch = some n → 0 < n → t.send_ok = false →
        auto_check_loop_run chat (t :: ts) = ([], LoopExit.exnCaught)) ∧
    (∀ (chat : Int) (t : TickInput) (ts : List TickInput) (effs : List Effect),
        auto_tick chat t = some effs → t.cancel_during_sleep = true →
        auto_check_loop_run chat (t :: ts) = (effs, LoopExit.cancelled)) := by
  refine ⟨?_, ?_, ?_⟩
  · intro chat t ts hct hcan
    simp [auto_check_loop_run, auto_tick, hct, hcan]
  · intro chat t ts n hct hn hsend
    simp [auto_check_loop_run, auto_tick, hct, hn, hsend]
  · intro chat t ts effs htick hcan
    simp [auto_check_loop_run, htick, hcan]

theorem loop_failure_policy_witness :
    auto_check_loop_run 1 [⟨FetchOutcome.raised, true, false⟩] =
      auto_check_loop_run 1 [] ∧
    auto_check_loop_run 1 [⟨fetch_ok 5, false, false⟩] = ([], LoopExit.exnCaught) ∧
    auto_check_loop_run 1 [⟨fetch_ok 0, true, true⟩] = ([], LoopExit.cancelled) :=
  ⟨loop_failure_policy.1 1 ⟨FetchOutcome.raised, true, false⟩ [] rfl rfl,
    loop_failure_policy.2.1 1 ⟨fetch_ok 5, false, false⟩ [] 5 rfl (by decide) rfl,
    loop_failure_policy.2.2 1 ⟨fetch_ok 0, true, true⟩ [] [] rfl rfl⟩

/-- C7: a stop request marks the registered running task cancelled in the
same handler invocation; a loop that receives the cancellation signal during
the sleep of a tick produces no output beyond that tick — whatever the
prober would return on the following ticks — and exits through the
`except asyncio.CancelledError` handler, propagating no exception; in
particular a cancellation during a zero tick followed by a tick that would
report 5 sends nothing at all. -/
theorem cancel_stops_sends :
    (∀ (s : BotState) (chat : Int) (tid : Nat) (info : TaskInfo),
        s.auto_check_tasks chat = some tid → s.tasks tid = some info →
        info.status = TaskStatus.running →
        (handle_stop_auto chat s).1.tasks tid = some ⟨info.chat, TaskStatus.cancelled⟩) ∧
    (∀ (chat : Int) (f : FetchOutcome) (post : List TickInput),
        (auto_check_loop_run chat (⟨f, true, true⟩ :: post)).2 = LoopExit.cancelled ∧
        (auto_check_loop_run chat (⟨f, true, true⟩ :: post)).1 =
          (auto_tick chat ⟨f, true, true⟩).getD []) ∧
    (∀ post : List TickInput,
        auto_check_loop_run 1 (⟨fetch_ok 0, true, true⟩ :: plain_tick (fetch_ok 5) :: post) =
          ([], LoopExit.cancelled)) := by
  refine ⟨?_, ?_, ?_⟩
  · intro s chat tid info hreg hts hrun
    unfold handle_stop_auto
    rw [hreg]
    show upd s.tasks tid ((s.tasks tid).map (fun i => ⟨i.chat, cancel_status i.status⟩)) tid =
      some ⟨info.chat, TaskStatus.cancelled⟩
    rw [upd_same, hts]
    simp [cancel_status, hrun]
  · intro chat f post
    obtain ⟨effs, hat⟩ := auto_tick_send_ok chat ⟨f, true, true⟩ rfl
    constructor
    · simp [auto_check_loop_run, hat]
    · simp [auto_check_loop_run, hat]
  · intro post
    rfl

theorem cancel_stops_sends_witness :
    (handle_stop_auto 1 (handle_start_auto 1 initState).1).1.tasks 0 =
      some ⟨1, TaskStatus.cancelled⟩ ∧
    (auto_check_loop_run 1 [⟨fetch_ok 5, true, true⟩, plain_tick (fetch_ok 5)]).2 =
      LoopExit.cancelled :=
  ⟨cancel_stops_sends.1 (handle_start_auto 1 initState).1 1 0 ⟨1, TaskStatus.running⟩
      (by decide) (by decide) rfl,
    (cancel_stops_sends.2.1 1 (fetch_ok 5) [plain_tick (fetch_ok 5)]).1⟩

/-- C1: at a reachable state with no task registered for a chat, a start
request registers exactly one freshly created running task for that chat and
acknowledges without an alert; a second start request before any stop is
rejected with the alerting already-running answer and leaves the state
untouched; and at every reachable state two running tasks for the same chat
coincide, so each chat has at most one live loop and the registry maps each
chat to at most one task. -/
theorem start_auto_lifecycle :
    (∀ (tr : List Event) (chat : Int),
        (reach tr).auto_check_tasks chat = none →
        ((handle_start_auto chat (reach tr)).1.auto_check_tasks chat =
            some (reach tr).nextId ∧
         (reach tr).tasks (reach tr).nextId = none ∧
         (handle_start_auto chat (reach tr)).1.tasks (reach tr).nextId =
            some ⟨chat, TaskStatus.running⟩ ∧
         (handle_start_auto chat (reach tr)).2 =
            [Effect.answer "Started auto check." false] ∧
         handle_start_auto chat (handle_start_auto chat (reach tr)).1 =
            ((handle_start_auto chat (reach tr)).1,
              [Effect.answer "Auto check already running." true]))) ∧
    (∀ (tr : List Event) (chat : Int) (t1 t2 : Nat),
        (reach tr).tasks t1 = some ⟨chat, TaskStatus.running⟩ →
        (reach tr).tasks t2 = some ⟨chat, TaskStatus.running⟩ → t1 = t2) := by
  constructor
  · intro tr chat hreg
    have hfresh : (reach tr).tasks (reach tr).nextId = none := by
      cases hts : (reach tr).tasks (reach tr).nextId with
      | none => rfl
      | some info =>
          have := (sysInv_reach tr).1 (reach tr).nextId (by rw [hts]; rfl)
          omega
    have hresult := handle_start_auto_absent chat (reach tr) hreg
    have ha : (handle_start_auto chat (reach tr)).1.auto_check_tasks chat =
        some (reach tr).nextId := by
      rw [hresult]
      show upd (reach tr).auto_check_tasks chat (some (reach tr).nextId) chat =
        some (reach tr).nextId
      rw [upd_same]
    refine ⟨ha, hfresh, ?_, ?_, ?_⟩
    · rw [hresult]
      show upd (reach tr).tasks (reach tr).nextId (some ⟨chat, TaskStatus.running⟩)
          (reach tr).nextId = some ⟨chat, TaskStatus.running⟩
      rw [upd_same]
    · rw [hresult]
    · exact handle_start_auto_present chat (handle_start_auto chat (reach tr)).1
        (reach tr).nextId ha
  · intro tr chat t1 t2 h1 h2
    exact running_unique (reach tr) (sysInv_reach tr) chat t1 t2 h1 h2

theorem start_auto_lifecycle_witness :
    ((handle_start_auto 7 (reach [])).1.auto_check_tasks 7 = some (reach []).nextId ∧
     (reach []).tasks (reach []).nextId = none ∧
     (handle_start_auto 7 (reach [])).1.tasks (reach []).nextId =
        some ⟨7, TaskStatus.running⟩ ∧
     (handle_start_auto 7 (reach [])).2 = [Effect.answer "Started auto check." false] ∧
     handle_start_auto 7 (handle_start_auto 7 (reach [])).1 =
        ((handle_start_auto 7 (reach [])).1,
          [Effect.answer "Auto check already running." true])) ∧
    (0 : Nat) = 0 :=
  ⟨start_auto_lifecycle.1 [] 7 rfl,
    start_auto_lifecycle.2 [Event.press BtnAction.start_auto 7 FetchOutcome.raised] 7 0 0
      (by decide) (by decide)⟩

/-- C4: a stop request on a chat with a registered running task pops the
registry entry and issues `task.cancel()` in the same handler invocation —
the mapping is gone and the task is marked cancelled (not yet exited) as
soon as the handler returns — answering without an alert; a stop request on
a chat with no entry answers with an alert and leaves the state exactly as
it was. -/
theorem stop_auto_lifecycle :
    (∀ (s : BotState) (chat : Int) (tid : Nat) (info : TaskInfo),
        s.auto_check_tasks chat = some tid → s.tasks tid = some info →
        info.status = TaskStatus.running →
        ((handle_stop_auto chat s).1.auto_check_tasks chat = none ∧
         (handle_stop_auto chat s).1.tasks tid = some ⟨info.chat, TaskStatus.cancelled⟩ ∧
         (handle_stop_auto chat s).2 = [Effect.answer "Stopped auto check." false])) ∧
    (∀ (s : BotState) (chat : Int),
        s.auto_check_tasks chat = none →
        handle_stop_auto chat s = (s, [Effect.answer "Auto check is not running." true])) := by
  constructor
  · intro s chat tid info hreg hts hrun
    have hresult : handle_stop_auto chat s =
        ({ auto_check_tasks := upd s.auto_check_tasks chat none,
           tasks := upd s.tasks tid
             ((s.tasks tid).map (fun i => ⟨i.chat, cancel_status i.status⟩)),
           nextId := s.nextId },
          [Effect.answer "Stopped auto check." false]) := by
      unfold handle_stop_auto
      rw [hreg]
    refine ⟨?_, ?_, ?_⟩
    · rw [hresult]
      show upd s.auto_check_tasks chat none chat = none
      rw [upd_same]
    · rw [hresult]
      show upd s.tasks tid ((s.tasks tid).map (fun i => ⟨i.chat, cancel_status i.status⟩)) tid =
        some ⟨info.chat, TaskStatus.cancelled⟩
      rw [upd_same, hts]
      simp [cancel_status, hrun]
    · rw [hresult]
  · intro s chat hreg
    unfold handle_stop_auto
    rw [hreg]

theorem stop_auto_lifecycle_witness :
    ((handle_stop_auto 1 (handle_start_auto 1 initState).1).1.auto_check_tasks 1 = none ∧
     (handle_stop_auto 1 (handle_start_auto 1 initState).1).1.tasks 0 =
        some ⟨1, TaskStatus.cancelled⟩ ∧
     (handle_stop_auto 1 (handle_start_auto 1 initState).1).2 =
        [Effect.answer "Stopped auto check." false]) ∧
    handle_stop_auto 1 initState =
      (initState, [Effect.answer "Auto check is not running." true]) :=
  ⟨stop_auto_lifecycle.1 (handle_start_auto 1 initState).1 1 0 ⟨1, TaskStatus.running⟩
      (by decide) (by decide) rfl,
    stop_auto_lifecycle.2 initState 1 rfl⟩

/-- C8: handling a start request for chat A at a reachable state leaves the
registry entry of every other chat and the task that entry points at
untouched: there is no cross-chat interference. -/
theorem start_auto_frame :
    ∀ (tr : List Event) (chatA c : Int),
      c ≠ chatA →
      ((handle_start_auto chatA (reach tr)).1.auto_check_tasks c =
          (reach tr).auto_check_tasks c ∧
       (∀ tid : Nat, (reach tr).auto_check_tasks c = some tid →
          (handle_start_auto chatA (reach tr)).1.tasks tid = (reach tr).tasks tid)) := by
  intro tr chatA c hne
  cases hreg : (reach tr).auto_check_tasks chatA with
  | some tid0 =>
      have hid : handle_start_auto chatA (reach tr) =
          ((reach tr), [Effect.answer "Auto check already running." true]) := by
        unfold handle_start_auto
        rw [hreg]
      rw [hid]
      exact ⟨rfl, fun tid _ => rfl⟩
  | none =>
      have hresult : handle_start_auto chatA (reach tr) =
          ({ auto_check_tasks :=
               upd (reach tr).auto_check_tasks chatA (some (reach tr).nextId),
             tasks := upd (reach tr).tasks (reach tr).nextId
               (some ⟨chatA, TaskStatus.running⟩),
             nextId := (reach tr).nextId + 1 },
            [Effect.answer "Started auto check." false]) := by
        unfold handle_start_auto
        rw [hreg]
      rw [hresult]
      constructor
      · show upd (reach tr).auto_check_tasks chatA (some (reach tr).nextId) c =
          (reach tr).auto_check_tasks c
        rw [upd_other _ _ _ _ hne]
      · intro tid hrc
        obtain ⟨st, hst⟩ := (sysInv_reach tr).2.2 c tid hrc
        have hlt : tid < (reach tr).nextId := (sysInv_reach tr).1 tid (by rw [hst]; rfl)
        have hne2 : tid ≠ (reach tr).nextId := by omega
        show upd (reach tr).tasks (reach tr).nextId (some ⟨chatA, TaskStatus.running⟩) tid =
          (reach tr).tasks tid
        rw [upd_other _ _ _ _ hne2]

theorem start_auto_frame_witness :
    (handle_start_auto 1 (reach [Event.press BtnAction.start_auto 2 FetchOutcome.raised])).1.auto_check_tasks
        2 =
      (reach [Event.press BtnAction.start_auto 2 FetchOutcome.raised]).auto_check_tasks 2 ∧
    (handle_start_auto 1 (reach [Event.press BtnAction.start_auto 2 FetchOutcome.raised])).1.tasks
        0 =
      (reach [Event.press BtnAction.start_auto 2 FetchOutcome.raised]).tasks 0 :=
  ⟨(start_auto_frame [Event.press BtnAction.start_auto 2 FetchOutcome.raised] 1 2
      (by decide)).1,
    (start_auto_frame [Event.press BtnAction.start_auto 2 FetchOutcome.raised] 1 2
      (by decide)).2 0 (by decide)⟩

/-- C10: when a running loop ends through its `except Exception` handler,
the registry entry of its chat survives (only the stop handler removes
entries), so although no live loop remains for that chat, a subsequent start
request is still rejected with the already-running alert and changes
nothing. -/
theorem crash_keeps_registry_entry :
    ∀ (tr : List Event) (chat : Int) (tid : Nat),
      (reach tr).auto_check_tasks chat = some tid →
      (reach tr).tasks tid = some ⟨chat, TaskStatus.running⟩ →
      ((stepEv (reach tr) (Event.loop_crash tid)).auto_check_tasks chat = some tid ∧
       (∀ t : Nat, (stepEv (reach tr) (Event.loop_crash tid)).tasks t ≠
          some ⟨chat, TaskStatus.running⟩) ∧
       handle_start_auto chat (stepEv (reach tr) (Event.loop_crash tid)) =
         (stepEv (reach tr) (Event.loop_crash tid),
           [Effect.answer "Auto check already running." true])) := by
  intro tr chat tid hreg hts
  have hred : stepEv (reach tr) (Event.loop_crash tid) =
      { auto_check_tasks := (reach tr).auto_check_tasks,
        tasks := upd (reach tr).tasks tid (some ⟨chat, TaskStatus.dead⟩),
        nextId := (reach tr).nextId } := by
    show finish_task (reach tr) tid TaskStatus.running = _
    simp [finish_task, hts]
  rw [hred]
  refine ⟨hreg, ?_, ?_⟩
  · intro t
    by_cases htt : t = tid
    · subst htt
      show upd (reach tr).tasks t (some ⟨chat, TaskStatus.dead⟩) t ≠
        some ⟨chat, TaskStatus.running⟩
      rw [upd_same]
      simp
    · show upd (reach tr).tasks tid (some ⟨chat, TaskStatus.dead⟩) t ≠
        some ⟨chat, TaskStatus.running⟩
      rw [upd_other _ _ _ _ htt]
      intro hcon
      exact htt (running_unique (reach tr) (sysInv_reach tr) chat t tid hcon hts)
  · exact handle_start_auto_present chat
      { auto_check_tasks := (reach tr).auto_check_tasks,
        tasks := upd (reach tr).tasks tid (some ⟨chat, TaskStatus.dead⟩),
        nextId := (reach tr).nextId } tid hreg

theorem crash_keeps_registry_entry_witness :
    (stepEv (reach [Event.press BtnAction.start_auto 1 FetchOutcome.raised])
        (Event.loop_crash 0)).auto_check_tasks 1 = some 0 ∧
    handle_start_auto 1
        (stepEv (reach [Event.press BtnAction.start_auto 1 FetchOutcome.raised])
          (Event.loop_crash 0)) =
      (stepEv (reach [Event.press BtnAction.start_auto 1 FetchOutcome.raised])
          (Event.loop_crash 0),
        [Effect.answer "Auto check already running." true]) :=
  ⟨(crash_keeps_registry_entry [Event.press BtnAction.start_auto 1 FetchOutcome.raised] 1 0
      (by decide) (by decide)).1,
    (crash_keeps_registry_entry [Event.press BtnAction.start_auto 1 FetchOutcome.raised] 1 0
      (by decide) (by decide)).2.2⟩

/-- The operations of one iteration of `auto_check_loop`, in source order:
the prober call `check_tickets()` (which performs `requests.get`), the
outbound `context.bot.send_message`, and `asyncio.sleep(30)`. -/
inductive LoopOp
  | probe
  | send
  | sleep
deriving DecidableEq

/-- An operation is a suspension point exactly when the source awaits it:
`requests.get` is invoked synchronously inside the plain function
`check_tickets` (no `await`), while the send and the sleep are awaited. -/
def is_suspension_point : LoopOp → Bool
  | LoopOp.probe => false
  | LoopOp.send => true
  | LoopOp.sleep => true

/-- Split a program into its atomic segments: maximal blocks that a task
executes without giving control back to the event loop, each extending up to
and including the first suspension point.  Under the single cooperative
asyncio event loop, no other task can run inside a segment. -/
def segments : List LoopOp → List (List LoopOp)
  | [] => []
  | op :: rest =>
      if is_suspension_point op then [op] :: segments rest
      else
        match segments rest with
        | [] => [[op]]
        | seg :: segs => (op :: seg) :: segs

/-- All interleavings of two lists that keep the relative order of each,
with an explicit fuel argument to make the recursion structural; the fuel is
never exhausted when it starts at the sum of the lengths. -/
def interleavings_fuel {α : Type} : Nat → List α → List α → List (List α)
  | _, [], ys => [ys]
  | _, x :: xs, [] => [x :: xs]
  | 0, _, _ => []
  | fuel + 1, x :: xs, y :: ys =>
      (interleavings_fuel fuel xs (y :: ys)).map (fun zs => x :: zs) ++
        (interleavings_fuel fuel (x :: xs) ys).map (fun zs => y :: zs)

/-- All interleavings of two lists that keep the relative order of each. -/
def interleavings {α : Type} (xs ys : List α) : List (List α) :=
  interleavings_fuel (xs.length + ys.length) xs ys

/-- Tag every operation of every segment with the task it belongs to. -/
def tag_segments (who : Bool) (segs : List (List LoopOp)) : List (List (Bool × LoopOp)) :=
  segs.map (fun seg => seg.map (fun op => (who, op)))

/-- All event traces the cooperative scheduler can produce for two tasks:
their segment lists are interleaved arbitrarily, but each segment runs
atomically. -/
def coop_traces (pa pb : List LoopOp) : List (List (Bool × LoopOp)) :=
  (interleavings (tag_segments false (segments pa)) (tag_segments true (segments pb))).map
    List.flatten

/-- One iteration of `auto_check_loop` on a tick that reaches the send. -/
def loop_iteration_ops : List LoopOp := [LoopOp.probe, LoopOp.send, LoopOp.sleep]

/-- Whether, somewhere in a trace, an operation of the given kind performed
by one task is immediately followed by an operation of the other task —
i.e. whether the other task can get the processor while the first task sits
at that operation. -/
def other_task_runs_after (target : LoopOp) : List (Bool × LoopOp) → Bool
  | (w1, op1) :: (w2, op2) :: rest =>
      if op1 = target ∧ w1 ≠ w2 then true
      else other_task_runs_after target ((w2, op2) :: rest)
  | _ => false

/-- C9 (corrected), counterexample: in the source the network call of the
prober is performed by `requests.get` with no `await`, so it is not a
suspension point, and in no cooperative interleaving of two loop iterations
does the other task obtain the processor immediately after a probe of one
task — the call blocks the whole process, not only the calling unit of
work, refuting the claim that the loops of other chats can continue while
the prober call of one chat is in flight. -/
theorem probe_blocks_event_loop :
    is_suspension_point LoopOp.probe = false ∧
    (coop_traces loop_iteration_ops loop_iteration_ops).any
        (other_task_runs_after LoopOp.probe) = false := by
  exact ⟨rfl, by decide⟩

/-- C9 (corrected), amended claim: the awaited send and the awaited
fixed-interval sleep are the only suspension points of the loop; the
network call of the prober is synchronous, so while it is in flight the
whole process is blocked — in no cooperative interleaving of two loop
iterations does the other task run immediately after a probe, whereas there
are interleavings in which the other task runs immediately after an awaited
sleep. -/
theorem loop_suspension_points :
    is_suspension_point LoopOp.probe = false ∧
    is_suspension_point LoopOp.send = true ∧
    is_suspension_point LoopOp.sleep = true ∧
    (coop_traces loop_iteration_ops loop_iteration_ops).any
        (other_task_runs_after LoopOp.probe) = false ∧
    (coop_traces loop_iteration_ops loop_iteration_ops).any
        (other_task_runs_after LoopOp.sleep) = true := by
  exact ⟨rfl, rfl, rfl, by decide, by decide⟩
